import Mathlib

/- Shallow embedding of the farmit backend: AuthService (src/auth/auth.service.ts)
and FarmService (src/farm/farm.service.ts), a NestJS + Prisma application.
External collaborators are parameters: argon2 hashing and verification, JWT
signing, the random bytes fed to randomDigits, and the ObjectId the database
assigns on create. The database is explicit state (a list of records with the
unique-key lookups spelled out). Every service method wraps its body in a
try/catch whose catch rethrows a single generic exception, so any exception
raised inside the body, including the HTTP exceptions the body itself throws,
surfaces as that generic one; the embedding reflects the surfaced error. -/

/-- Kinds of NestJS HTTP exceptions that can surface from the services. -/
inductive ErrKind where
  | NotFound
  | BadRequest
  | Unauthorized
  | InternalError
deriving DecidableEq

/-- A surfaced HTTP exception: kind plus user-facing message. -/
structure HttpError where
  kind : ErrKind
  message : String
deriving DecidableEq

/-- JSON-like values, for response data fields and event payloads. -/
inductive JVal where
  | null
  | str (s : String)
  | num (n : Int)
  | obj (fields : List (String × JVal))
  | arr (elems : List JVal)

/-- The uniform response envelope of the services. -/
structure Envelope where
  message : String
  status : String
  statusCode : Nat
  data : JVal

/-- A user record, after the prisma User model. The schema declares verified
as a nullable Boolean defaulting to false; the services only test its
truthiness and set it to true, so a Bool with null read as false is
behaviorally identical. -/
structure UserRec where
  id : String
  email : String
  username : String
  firstname : String
  lastname : String
  passwordhash : String
  verified : Bool
  token : Option String
  resetToken : Option String

/-- prisma user.findUnique on the unique email key. -/
def findByEmail (db : List UserRec) (email : String) : Option UserRec :=
  db.find? (fun u => u.email == email)

/-- prisma user.update on the unique email key: rewrite the matching record. -/
def updateByEmail (db : List UserRec) (email : String) (f : UserRec → UserRec) :
    List UserRec :=
  db.map (fun u => if u.email == email then f u else u)

/-- One base-16 digit, lowercase, as Node renders buffers. -/
def hexDigit (n : Nat) : Char :=
  if n < 10 then Char.ofNat (48 + n) else Char.ofNat (87 + n)

/-- Characters of the Node hex rendering of a byte list: two lowercase hex
digits per byte, high nibble first. -/
def bytesToHexChars : List Nat → List Char
  | [] => []
  | b :: rest => hexDigit (b / 16) :: hexDigit (b % 16) :: bytesToHexChars rest

/-- Node Buffer hex rendering of a byte list. -/
def bytesToHex (bs : List Nat) : String :=
  String.mk (bytesToHexChars bs)

/-- AuthService.randomDigits: three random bytes rendered in hex. The bytes
produced by crypto.randomBytes are passed explicitly. -/
def randomDigits (bs : List Nat) : String :=
  bytesToHex bs

/-- True when the character is one of 0-9 or a-f. -/
def isLowerHexChar (c : Char) : Bool :=
  (48 ≤ c.toNat && c.toNat ≤ 57) || (97 ≤ c.toNat && c.toNat ≤ 102)

/-- An event published on the emitter: event name plus payload object. -/
structure EmitEvent where
  name : String
  payload : JVal

/-- Outcome of an auth operation: surfaced result, database afterwards,
events published. -/
structure AuthOut where
  result : Except HttpError Envelope
  db : List UserRec
  events : List EmitEvent

/-- The dto of register. -/
structure CreateUserDto where
  email : String
  username : String
  firstname : String
  lastname : String
  password : String

/-- AuthService.register. hash stands for argon.hash and newId for the
ObjectId the database assigns. The create carries a select of email and
username only, so that is all the envelope data holds. A unique-constraint
violation on email or username makes the create throw; the catch-all turns
any throw into the generic 500. -/
def register (hash : String → String) (newId : String) (db : List UserRec)
    (dto : CreateUserDto) : AuthOut :=
  if db.any (fun u => u.email == dto.email || u.username == dto.username) then
    ⟨.error ⟨.InternalError, "Registration failed."⟩, db, []⟩
  else
    ⟨.ok ⟨"User registered.", "Success", 201,
        .obj [("email", .str dto.email), ("username", .str dto.username)]⟩,
      db ++ [⟨newId, dto.email, dto.username, dto.firstname, dto.lastname,
        hash dto.password, false, none, none⟩],
      [⟨"welcome-email",
        .obj [("to", .str dto.email),
              ("data", .obj [("name", .str dto.username)])]⟩]⟩

/-- What login hands back: the generic catch-all error, the please-verify
envelope, or the bare access token object. -/
inductive LoginReply where
  | err (e : HttpError)
  | envelope (env : Envelope)
  | accessToken (tok : String)

/-- Outcome of login: reply, database afterwards, events published. -/
structure LoginOut where
  reply : LoginReply
  db : List UserRec
  events : List EmitEvent

/-- AuthService.login. verify stands for argon.verify on (stored hash,
password); sign for jwt.signAsync on the payload (sub, email); bs for the
three random bytes. findFault, updateFault and signFault inject failures of
the database lookup, the database update and the token signing. Every throw
inside the try block is caught and resurfaces as the one generic
UnauthorizedException, including the absent-user case, where reading
passwordhash off a null user throws a TypeError, and the Invalid password
exception thrown on a mismatch. -/
def login (verify : String → String → Bool) (sign : String → String → String)
    (bs : List Nat) (findFault updateFault signFault : Bool)
    (db : List UserRec) (email password : String) : LoginOut :=
  if findFault then
    ⟨.err ⟨.Unauthorized, "Login failed, try again."⟩, db, []⟩
  else
    match findByEmail db email with
    | none => ⟨.err ⟨.Unauthorized, "Login failed, try again."⟩, db, []⟩
    | some user =>
      if verify user.passwordhash password then
        if user.verified then
          if signFault then
            ⟨.err ⟨.Unauthorized, "Login failed, try again."⟩, db, []⟩
          else
            ⟨.accessToken (sign user.id user.email), db, []⟩
        else
          if updateFault then
            ⟨.err ⟨.Unauthorized, "Login failed, try again."⟩, db, []⟩
          else
            ⟨.envelope ⟨"Please verify your account", "success", 200, .null⟩,
              updateByEmail db user.email
                (fun u => { u with token := some (randomDigits bs) }),
              [⟨"send-verification",
                .obj [("to", .str user.email),
                      ("data", .obj [("name", .str user.username),
                                     ("token", .str (randomDigits bs))])]⟩]⟩
      else
        ⟨.err ⟨.Unauthorized, "Login failed, try again."⟩, db, []⟩

/-- The select of AuthService.getUserByEmail: public fields only. -/
structure PublicUser where
  email : String
  username : String

/-- AuthService.getUserByEmail. The NotFoundException raised when the lookup
misses is thrown inside the try block, so the catch of this very method
rewraps it as a 500 with the Please try again message. -/
def getUserByEmail (db : List UserRec) (user_email : String) :
    Except HttpError PublicUser :=
  match findByEmail db user_email with
  | none => .error ⟨.InternalError, "Please try again."⟩
  | some u => .ok ⟨u.email, u.username⟩

/-- AuthService.forgotPassword. Any throw out of getUserByEmail is caught by
the outer catch and surfaces as the generic 500. On success a reset token is
persisted and the send-reset-token event is emitted whose payload is the
object holding resetToken alone, exactly as built in the source. -/
def forgotPassword (bs : List Nat) (db : List UserRec) (email : String) :
    AuthOut :=
  match getUserByEmail db email with
  | .error _ => ⟨.error ⟨.InternalError, "Retrieving password failed."⟩, db, []⟩
  | .ok user =>
    ⟨.ok ⟨"Reset token has been sent to your email", "success", 200, .null⟩,
      updateByEmail db user.email
        (fun u => { u with resetToken := some (randomDigits bs) }),
      [⟨"send-reset-token", .obj [("resetToken", .str (randomDigits bs))]⟩]⟩

/-- AuthService.verifyToken. Both the NotFoundException for an absent user
and the BadRequestException for a token mismatch are thrown inside the try
block and swallowed by the catch-all, which rethrows the generic 500. The
strict equality against the nullable stored token is false when the stored
token is null. -/
def verifyToken (db : List UserRec) (email token : String) : AuthOut :=
  match findByEmail db email with
  | none => ⟨.error ⟨.InternalError, "Token could not be verified."⟩, db, []⟩
  | some user =>
    if (match user.token with | some t => t == token | none => false) then
      ⟨.ok ⟨"Valid Token", "success", 200, .null⟩,
        updateByEmail db email (fun u => { u with verified := true }), []⟩
    else
      ⟨.error ⟨.InternalError, "Token could not be verified."⟩, db, []⟩

/-- AuthService.resetPassword: hash the new password and overwrite the stored
hash by unique email, with no read or comparison of the stored reset token.
A prisma update with no matching row throws, which the catch surfaces as the
generic 500. -/
def resetPassword (hash : String → String) (db : List UserRec)
    (email newPassword : String) : AuthOut :=
  match findByEmail db email with
  | none => ⟨.error ⟨.InternalError, "Password could not be reset."⟩, db, []⟩
  | some _ =>
    ⟨.ok ⟨"Password Reset successfully.", "success", 200, .null⟩,
      updateByEmail db email (fun u => { u with passwordhash := hash newPassword }),
      []⟩

/-- Deep key search in a JSON value: does a field with this key occur
anywhere in the value, at any nesting depth. -/
def JVal.hasKey (k : String) : JVal → Bool
  | .null => false
  | .str _ => false
  | .num _ => false
  | .obj fs => fs.attach.any (fun p => p.1.1 == k || JVal.hasKey k p.1.2)
  | .arr vs => vs.attach.any (fun v => JVal.hasKey k v.1)
decreasing_by
  · obtain ⟨⟨a, b⟩, hm⟩ := p
    have h1 := List.sizeOf_lt_of_mem hm
    simp only [Prod.mk.sizeOf_spec] at h1
    simp only [JVal.obj.sizeOf_spec]
    omega
  · have h1 := List.sizeOf_lt_of_mem v.property
    simp only [JVal.arr.sizeOf_spec]
    omega

/-- The embedded Location type of the prisma schema. -/
structure Location where
  longitude : String
  latitude : String

/-- The embedded SoilInfo type of the prisma schema. soilpH is a Float
there; no claim computes with it, so it is carried as a rational. -/
structure SoilInfo where
  soilpH : Rat
  soilType : String

/-- A farm record, after the prisma Farm model. -/
structure Farm where
  id : String
  farmerId : String
  name : String
  location : Location
  size : Int
  size_unit : String
  status : String
  soil : SoilInfo

/-- JSON rendering of a location. -/
def locationToJson (l : Location) : JVal :=
  .obj [("longitude", .str l.longitude), ("latitude", .str l.latitude)]

/-- JSON rendering of soil info. -/
def soilToJson (s : SoilInfo) : JVal :=
  .obj [("soilpH", .str (toString s.soilpH)), ("soilType", .str s.soilType)]

/-- JSON rendering of a farm record, as the service returns it whole. -/
def farmToJson (f : Farm) : JVal :=
  .obj [("id", .str f.id), ("farmerId", .str f.farmerId),
        ("name", .str f.name), ("location", locationToJson f.location),
        ("size", .num f.size), ("size_unit", .str f.size_unit),
        ("status", .str f.status), ("soil", soilToJson f.soil)]

/-- Outcome of a farm operation: surfaced result and farm table afterwards. -/
structure FarmOut where
  result : Except HttpError Envelope
  farms : List Farm

/-- The dto of createFarm, whose soil field is named soilInfo. -/
structure CreateFarmDto where
  name : String
  location : Location
  size : Int
  size_unit : String
  status : String
  soilInfo : SoilInfo

/-- FarmService.createFarm: creates the farm with farmerId set to the caller,
then links it into the owning user record in a second, separate write that
does not alter the farm table. newId is the ObjectId the database assigns. -/
def createFarm (newId : String) (farms : List Farm) (userid : String)
    (dto : CreateFarmDto) : FarmOut :=
  ⟨.ok ⟨"Farm created", "success", 201,
      farmToJson ⟨newId, userid, dto.name, dto.location, dto.size,
        dto.size_unit, dto.status, dto.soilInfo⟩⟩,
    farms ++ [⟨newId, userid, dto.name, dto.location, dto.size, dto.size_unit,
      dto.status, dto.soilInfo⟩]⟩

/-- JS truthiness test the source applies to the findMany result: an array
object is never falsy, whether empty or not. -/
def arrayFalsy (_ : List Farm) : Bool :=
  false

/-- FarmService.getFarms: findMany filtered on farmerId. The source guards
the result with a falsiness check that can never fire on an array, so the
NotFoundException behind it is unreachable. -/
def getFarms (farms : List Farm) (userid : String) : FarmOut :=
  if arrayFalsy (farms.filter (fun f => f.farmerId == userid)) then
    ⟨.error ⟨.InternalError, "Farms could not be retrieved."⟩, farms⟩
  else
    ⟨.ok ⟨"Farms retrieved.", "success", 200,
        .arr ((farms.filter (fun f => f.farmerId == userid)).map farmToJson)⟩,
      farms⟩

/-- FarmService.getById: findUnique on the compound filter of id and
farmerId. The NotFoundException for a miss is thrown inside the try block
and swallowed by the catch-all, which rethrows the generic 500, so a farm
owned by someone else and a farm that does not exist surface identically. -/
def getById (farms : List Farm) (userid farmid : String) : FarmOut :=
  match farms.find? (fun f => f.farmerId == userid && f.id == farmid) with
  | none => ⟨.error ⟨.InternalError, "Farm could not be retrieved"⟩, farms⟩
  | some farm =>
    ⟨.ok ⟨"Farm retrieved successfully", "success", 200, farmToJson farm⟩,
      farms⟩

/-- The dto of updateFarm. -/
structure UpdateFarmDto where
  name : String
  location : Location
  size : Int
  size_unit : String
  status : String
  soil : SoilInfo

/-- The field overwrite updateFarm performs on the matching farm row. -/
def applyUpdate (dto : UpdateFarmDto) (f : Farm) : Farm :=
  ⟨f.id, f.farmerId, dto.name, dto.location, dto.size, dto.size_unit,
    dto.status, dto.soil⟩

/-- FarmService.updateFarm: update on the compound filter of id and
farmerId; a prisma update with no matching row throws, surfaced by the
catch as the generic 500. -/
def updateFarm (farms : List Farm) (userid farmid : String)
    (dto : UpdateFarmDto) : FarmOut :=
  match farms.find? (fun f => f.id == farmid && f.farmerId == userid) with
  | none => ⟨.error ⟨.InternalError, "Farm could not be updated."⟩, farms⟩
  | some farm =>
    ⟨.ok ⟨"Farm updated successfully", "success", 200,
        farmToJson (applyUpdate dto farm)⟩,
      farms.map (fun f =>
        if f.id == farmid && f.farmerId == userid then applyUpdate dto f else f)⟩

/-- FarmService.deleteFarm: delete on the compound filter of farmerId and
id; a prisma delete with no matching row throws, surfaced by the catch as
the generic 500. -/
def deleteFarm (farms : List Farm) (userid farmid : String) : FarmOut :=
  match farms.find? (fun f => f.farmerId == userid && f.id == farmid) with
  | none => ⟨.error ⟨.InternalError, "Farm could not be deleted."⟩, farms⟩
  | some _ =>
    ⟨.ok ⟨"Farm deleted successfully", "success", 200, .null⟩,
      farms.filter (fun f => !(f.farmerId == userid && f.id == farmid))⟩

/-- A surfaced result keeps the password hash out of its data: either it is
an error, or no field named passwordhash occurs anywhere in the data. -/
def dataClean : Except HttpError Envelope → Bool
  | .ok env => !(env.data.hasKey "passwordhash")
  | .error _ => true

/-- A password check that accepts everything, for concrete runs. -/
def acceptAll : String → String → Bool :=
  fun _ _ => true

/-- A signing stand-in that joins subject and email, for concrete runs. -/
def concatSign : String → String → String :=
  fun sub email => sub ++ "." ++ email

/-- A hashing stand-in for concrete runs. -/
def tagHash : String → String :=
  fun p => "hashed:" ++ p

/-- A sample unverified user holding the one-time token abc123. -/
def vUser : UserRec :=
  ⟨"id1", "a@x.com", "alice", "Al", "Ice", "hash1", false, some "abc123", none⟩

/-- A database holding just the sample unverified user. -/
def vDb : List UserRec :=
  [vUser]

/-- A sample verified user. -/
def wUser : UserRec :=
  ⟨"id2", "b@x.com", "bob", "Bo", "Bee", "hash2", true, none, none⟩

/-- A database holding just the sample verified user. -/
def wDb : List UserRec :=
  [wUser]

/-- A sample farm owned by user u1. -/
def farmA : Farm :=
  ⟨"f1", "u1", "North Field", ⟨"1.5", "2.5"⟩, 10, "Acres", "Planting",
    ⟨7, "loam"⟩⟩

/-- A farm table holding just the sample farm. -/
def farmsDb : List Farm :=
  [farmA]

theorem any_attach_eq {α : Type} (l : List α) (p : α → Bool) :
    (l.attach.any fun x => p x.1) = l.any p := by
  cases h : l.any p with
  | true =>
    rw [List.any_eq_true] at h
    obtain ⟨a, ha, hp⟩ := h
    rw [List.any_eq_true]
    exact ⟨⟨a, ha⟩, List.mem_attach l ⟨a, ha⟩, hp⟩
  | false =>
    rw [List.any_eq_false] at h
    rw [List.any_eq_false]
    intro x hx
    exact h x.1 x.2

theorem hasKey_null (k : String) : JVal.null.hasKey k = false := by
  rw [JVal.hasKey]

theorem hasKey_str (k s : String) : (JVal.str s).hasKey k = false := by
  rw [JVal.hasKey]

theorem hasKey_num (k : String) (n : Int) : (JVal.num n).hasKey k = false := by
  rw [JVal.hasKey]

theorem hasKey_obj (k : String) (fs : List (String × JVal)) :
    (JVal.obj fs).hasKey k = fs.any (fun p => p.1 == k || p.2.hasKey k) := by
  rw [JVal.hasKey]
  exact any_attach_eq fs (fun p => p.1 == k || p.2.hasKey k)

theorem hasKey_arr (k : String) (vs : List JVal) :
    (JVal.arr vs).hasKey k = vs.any (fun v => v.hasKey k) := by
  rw [JVal.hasKey]
  exact any_attach_eq vs (fun v => v.hasKey k)

theorem farmToJson_clean (f : Farm) :
    (farmToJson f).hasKey "passwordhash" = false := by
  simp [farmToJson, locationToJson, soilToJson, hasKey_obj, hasKey_str,
    hasKey_num]

theorem farmsJson_clean (fs : List Farm) :
    (JVal.arr (fs.map farmToJson)).hasKey "passwordhash" = false := by
  rw [hasKey_arr, List.any_eq_false]
  intro v hv
  obtain ⟨f, _, rfl⟩ := List.mem_map.mp hv
  simp [farmToJson_clean]

theorem hexDigit_lowerHex (n : Nat) (h : n < 16) :
    isLowerHexChar (hexDigit n) = true := by
  interval_cases n <;> decide

theorem bytesToHexChars_length (bs : List Nat) :
    (bytesToHexChars bs).length = 2 * bs.length := by
  induction bs with
  | nil => rfl
  | cons b rest ih =>
    simp only [bytesToHexChars, List.length_cons, ih]
    ring

theorem bytesToHexChars_lowerHex (bs : List Nat) (h : ∀ b ∈ bs, b < 256) :
    (bytesToHexChars bs).all isLowerHexChar = true := by
  induction bs with
  | nil => rfl
  | cons b rest ih =>
    simp only [bytesToHexChars, List.all_cons, Bool.and_eq_true]
    refine ⟨hexDigit_lowerHex _ ?_, hexDigit_lowerHex _ ?_, ih ?_⟩
    · have hb := h b (by simp)
      omega
    · exact Nat.mod_lt _ (by omega)
    · intro x hx
      exact h x (by simp [hx])

theorem findByEmail_updateByEmail (db : List UserRec) (email : String)
    (f : UserRec → UserRec) (hf : ∀ u, (f u).email = u.email) :
    findByEmail (updateByEmail db email f) email =
      (findByEmail db email).map f := by
  induction db with
  | nil => rfl
  | cons u rest ih =>
    simp only [updateByEmail, List.map_cons] at ih ⊢
    unfold findByEmail at ih ⊢
    by_cases hc : (u.email == email) = true
    · rw [if_pos hc]
      have hc2 : ((f u).email == email) = true := by
        rw [hf u]
        exact hc
      simp only [List.find?_cons, hc, hc2]
      rfl
    · have hcf : (u.email == email) = false := by
        cases hb : (u.email == email)
        · rfl
        · exact absurd hb hc
      rw [if_neg hc]
      simp only [List.find?_cons, hcf]
      exact ih

theorem map_resetToken_updateByEmail (db : List UserRec) (email : String)
    (g : UserRec → UserRec) (hg : ∀ u, (g u).resetToken = u.resetToken) :
    (updateByEmail db email g).map UserRec.resetToken =
      db.map UserRec.resetToken := by
  induction db with
  | nil => rfl
  | cons u rest ih =>
    simp only [updateByEmail, List.map_cons] at ih ⊢
    by_cases hc : (u.email == email) = true
    · rw [if_pos hc, hg u, ih]
    · rw [if_neg hc, ih]

/-- C1: the failure kinds of verifyToken are not NotFound and BadRequest: an
absent user and a mismatched token both surface the generic InternalError
500, because the NotFoundException and BadRequestException are thrown inside
the try block and swallowed by the catch-all. The mismatch does leave the
user record, hence the verified flag, unchanged, and an exact match sets
verified to true and returns the success envelope. -/
theorem verifyToken_swallows_http_exceptions :
    verifyToken vDb "ghost@x.com" "abc123" =
      ⟨.error ⟨.InternalError, "Token could not be verified."⟩, vDb, []⟩ ∧
    verifyToken vDb "a@x.com" "zzzzzz" =
      ⟨.error ⟨.InternalError, "Token could not be verified."⟩, vDb, []⟩ ∧
    verifyToken vDb "a@x.com" "abc123" =
      ⟨.ok ⟨"Valid Token", "success", 200, .null⟩,
        [⟨"id1", "a@x.com", "alice", "Al", "Ice", "hash1", true,
          some "abc123", none⟩], []⟩ :=
  ⟨rfl, rfl, rfl⟩

/-- C2: getById returns the farm exactly when id and farmerId both match,
and a farm owned by another user is indistinguishable from an absent one,
but the surfaced failure is the generic InternalError 500, not NotFound: the
NotFoundException is thrown inside the try block and swallowed by the
catch-all. -/
theorem getById_swallows_not_found :
    getById farmsDb "u2" "f1" =
      ⟨.error ⟨.InternalError, "Farm could not be retrieved"⟩, farmsDb⟩ ∧
    getById farmsDb "u1" "f9" =
      ⟨.error ⟨.InternalError, "Farm could not be retrieved"⟩, farmsDb⟩ ∧
    getById farmsDb "u1" "f1" =
      ⟨.ok ⟨"Farm retrieved successfully", "success", 200, farmToJson farmA⟩,
        farmsDb⟩ :=
  ⟨rfl, rfl, rfl⟩

/-- C5: forgotPassword for an absent email surfaces the generic
InternalError 500, not NotFound, since getUserByEmail already rewraps its
own NotFoundException as a 500 and the outer catch rewraps again; for an
existing user it persists the fresh reset token, emits send-reset-token and
returns the generic success envelope. -/
theorem forgotPassword_swallows_not_found :
    forgotPassword [171, 205, 239] [] "ghost@x.com" =
      ⟨.error ⟨.InternalError, "Retrieving password failed."⟩, [], []⟩ ∧
    forgotPassword [171, 205, 239] vDb "a@x.com" =
      ⟨.ok ⟨"Reset token has been sent to your email", "success", 200, .null⟩,
        [⟨"id1", "a@x.com", "alice", "Al", "Ice", "hash1", false,
          some "abc123", some "abcdef"⟩],
        [⟨"send-reset-token", .obj [("resetToken", .str "abcdef")]⟩]⟩ :=
  ⟨rfl, rfl⟩

/-- C8: the send-reset-token event emitted by forgotPassword carries only
the reset token: its payload holds no recipient field at all, unlike the
welcome-email and send-verification payloads, which do carry a recipient
address together with name and, where applicable, token. -/
theorem forgotPassword_event_lacks_recipient :
    (forgotPassword [171, 205, 239] vDb "a@x.com").events =
      [⟨"send-reset-token", .obj [("resetToken", .str "abcdef")]⟩] ∧
    (JVal.obj [("resetToken", .str "abcdef")]).hasKey "to" = false ∧
    (register tagHash "id9" [] ⟨"c@x.com", "cara", "Ca", "Ra", "pw"⟩).events =
      [⟨"welcome-email",
        .obj [("to", .str "c@x.com"),
              ("data", .obj [("name", .str "cara")])]⟩] ∧
    (login acceptAll concatSign [171, 205, 239] false false false vDb
        "a@x.com" "pw").events =
      [⟨"send-verification",
        .obj [("to", .str "a@x.com"),
              ("data", .obj [("name", .str "alice"),
                             ("token", .str "abcdef")])]⟩] := by
  refine ⟨rfl, ?_, rfl, rfl⟩
  simp [hasKey_obj, hasKey_str]

/-- C9: getFarms always returns the 200 success envelope whose data is the
JSON rendering of exactly the farms owned by the user, the empty list
included; the falsiness guard in front of the NotFoundException can never
fire on an array, so that branch is unreachable and getFarms never fails. -/
theorem getFarms_always_succeeds (farms : List Farm) (userid : String) :
    getFarms farms userid =
      ⟨.ok ⟨"Farms retrieved.", "success", 200,
        .arr ((farms.filter (fun f => f.farmerId == userid)).map farmToJson)⟩,
        farms⟩ := by
  simp [getFarms, arrayFalsy]

/-- C10: a login for a verified user with a matching password writes
nothing: it returns only the signed access token, leaves the user database
exactly as it was, and emits no event. -/
theorem login_verified_writes_nothing
    (verify : String → String → Bool) (sign : String → String → String)
    (bs : List Nat) (db : List UserRec) (email password : String)
    (u : UserRec)
    (hfind : findByEmail db email = some u)
    (hver : u.verified = true)
    (hpw : verify u.passwordhash password = true) :
    login verify sign bs false false false db email password =
      ⟨.accessToken (sign u.id u.email), db, []⟩ := by
  simp [login, hfind, hpw, hver]

theorem login_verified_writes_nothing_wit :
    findByEmail wDb "b@x.com" = some wUser ∧
    wUser.verified = true ∧
    acceptAll wUser.passwordhash "pw" = true ∧
    login acceptAll concatSign [0, 0, 0] false false false wDb "b@x.com"
        "pw" =
      ⟨.accessToken (concatSign wUser.id wUser.email), wDb, []⟩ :=
  ⟨rfl, rfl, rfl,
    login_verified_writes_nothing acceptAll concatSign [0, 0, 0] wDb
      "b@x.com" "pw" wUser rfl rfl rfl⟩

/-- C3: a login for an unverified user whose password checks out never
issues a session token: it persists the freshly generated verification
token on the user record, emits send-verification carrying it, and returns
exactly the please-verify envelope with status success, statusCode 200 and
null data; under any injected fault the reply is still never an access
token; and the token is the hex rendering of the three random bytes, six
characters long, all lowercase hex. -/
theorem login_unverified_please_verify
    (verify : String → String → Bool) (sign : String → String → String)
    (bs : List Nat) (db : List UserRec) (email password : String)
    (u : UserRec)
    (hfind : findByEmail db email = some u)
    (hver : u.verified = false)
    (hpw : verify u.passwordhash password = true)
    (hlen : bs.length = 3)
    (hbytes : ∀ b ∈ bs, b < 256) :
    login verify sign bs false false false db email password =
      ⟨.envelope ⟨"Please verify your account", "success", 200, .null⟩,
        updateByEmail db u.email
          (fun x => { x with token := some (randomDigits bs) }),
        [⟨"send-verification",
          .obj [("to", .str u.email),
                ("data", .obj [("name", .str u.username),
                               ("token", .str (randomDigits bs))])]⟩]⟩ ∧
    (∀ ff uf sf t,
      (login verify sign bs ff uf sf db email password).reply ≠
        .accessToken t) ∧
    (randomDigits bs).length = 6 ∧
    (randomDigits bs).data.all isLowerHexChar = true := by
  refine ⟨?_, ?_, ?_, ?_⟩
  · simp [login, hfind, hpw, hver]
  · intro ff uf sf t
    cases ff <;> cases uf <;> cases sf <;>
      simp [login, hfind, hpw, hver]
  · have h1 : (randomDigits bs).length = (bytesToHexChars bs).length := rfl
    rw [h1, bytesToHexChars_length, hlen]
  · have h1 : (randomDigits bs).data = bytesToHexChars bs := rfl
    rw [h1]
    exact bytesToHexChars_lowerHex bs hbytes

theorem login_unverified_please_verify_wit :
    findByEmail vDb "a@x.com" = some vUser ∧
    vUser.verified = false ∧
    acceptAll vUser.passwordhash "pw" = true ∧
    ([171, 205, 239] : List Nat).length = 3 ∧
    (∀ b ∈ ([171, 205, 239] : List Nat), b < 256) ∧
    login acceptAll concatSign [171, 205, 239] false false false vDb
        "a@x.com" "pw" =
      ⟨.envelope ⟨"Please verify your account", "success", 200, .null⟩,
        updateByEmail vDb vUser.email
          (fun x => { x with token := some (randomDigits [171, 205, 239]) }),
        [⟨"send-verification",
          .obj [("to", .str vUser.email),
                ("data", .obj [("name", .str vUser.username),
                               ("token",
                                .str (randomDigits [171, 205, 239]))])]⟩]⟩ ∧
    (randomDigits [171, 205, 239]).length = 6 :=
  ⟨rfl, rfl, rfl, rfl, by decide,
    (login_unverified_please_verify acceptAll concatSign [171, 205, 239]
      vDb "a@x.com" "pw" vUser rfl rfl rfl rfl (by decide)).1,
    (login_unverified_please_verify acceptAll concatSign [171, 205, 239]
      vDb "a@x.com" "pw" vUser rfl rfl rfl rfl (by decide)).2.2.1⟩

/-- C4: every failing login surfaces the one generic Unauthorized error,
whatever the cause: absent user, failed password check, or an injected
fault in the lookup, the update or the signing; login never surfaces
NotFound, BadRequest or InternalError. -/
theorem login_failures_all_unauthorized
    (verify : String → String → Bool) (sign : String → String → String)
    (bs : List Nat) (ff uf sf : Bool) (db : List UserRec)
    (email password : String) (e : HttpError)
    (h : (login verify sign bs ff uf sf db email password).reply = .err e) :
    e = ⟨.Unauthorized, "Login failed, try again."⟩ := by
  unfold login at h
  cases ff with
  | true =>
    simp at h
    exact h.symm
  | false =>
    simp only [Bool.false_eq_true, if_false] at h
    cases hfind : findByEmail db email with
    | none =>
      rw [hfind] at h
      simp at h
      exact h.symm
    | some user =>
      rw [hfind] at h
      by_cases hpw : verify user.passwordhash password = true
      · by_cases hver : user.verified = true
        · cases sf with
          | true =>
            simp [hpw, hver] at h
            exact h.symm
          | false =>
            simp [hpw, hver] at h
        · cases uf with
          | true =>
            simp [hpw, hver] at h
            exact h.symm
          | false =>
            simp [hpw, hver] at h
      · simp [hpw] at h
        exact h.symm

theorem login_failures_all_unauthorized_wit :
    (login acceptAll concatSign [] false false false [] "e@x.com"
        "pw").reply =
      .err ⟨.Unauthorized, "Login failed, try again."⟩ ∧
    (⟨ErrKind.Unauthorized, "Login failed, try again."⟩ : HttpError) =
      ⟨.Unauthorized, "Login failed, try again."⟩ :=
  ⟨rfl,
    login_failures_all_unauthorized acceptAll concatSign [] false false
      false [] "e@x.com" "pw"
      ⟨.Unauthorized, "Login failed, try again."⟩ rfl⟩

/-- C6: resetPassword for an existing user hashes the new password and
overwrites the stored hash unconditionally, returning the fixed success
envelope: the outcome is word-for-word the same for every stored reset
token value, the update touches no field but passwordhash, and the
resetToken column afterwards equals the one before, so the token is
neither read, compared nor cleared. -/
theorem resetPassword_unconditional
    (hash : String → String) (db : List UserRec)
    (email newPassword : String)
    (h : (findByEmail db email).isSome = true) :
    resetPassword hash db email newPassword =
      ⟨.ok ⟨"Password Reset successfully.", "success", 200, .null⟩,
        updateByEmail db email
          (fun x => { x with passwordhash := hash newPassword }), []⟩ ∧
    (∀ t : Option String,
      resetPassword hash
          (updateByEmail db email (fun x => { x with resetToken := t }))
          email newPassword =
        ⟨.ok ⟨"Password Reset successfully.", "success", 200, .null⟩,
          updateByEmail
            (updateByEmail db email (fun x => { x with resetToken := t }))
            email (fun x => { x with passwordhash := hash newPassword }),
          []⟩) ∧
    (resetPassword hash db email newPassword).db.map UserRec.resetToken =
      db.map UserRec.resetToken := by
  cases hfind : findByEmail db email with
  | none =>
    rw [hfind] at h
    simp at h
  | some u =>
    refine ⟨?_, ?_, ?_⟩
    · simp [resetPassword, hfind]
    · intro t
      have h2 : findByEmail
          (updateByEmail db email (fun x => { x with resetToken := t }))
          email = some { u with resetToken := t } := by
        rw [findByEmail_updateByEmail db email
          (fun x => { x with resetToken := t }) (fun x => rfl), hfind]
        rfl
      simp [resetPassword, h2]
    · simp only [resetPassword, hfind]
      exact map_resetToken_updateByEmail db email
        (fun x => { x with passwordhash := hash newPassword }) (fun x => rfl)

theorem resetPassword_unconditional_wit :
    (findByEmail vDb "a@x.com").isSome = true ∧
    resetPassword tagHash vDb "a@x.com" "newpw" =
      ⟨.ok ⟨"Password Reset successfully.", "success", 200, .null⟩,
        updateByEmail vDb "a@x.com"
          (fun x => { x with passwordhash := tagHash "newpw" }), []⟩ ∧
    (resetPassword tagHash vDb "a@x.com" "newpw").db.map
        UserRec.resetToken =
      vDb.map UserRec.resetToken :=
  ⟨rfl,
    (resetPassword_unconditional tagHash vDb "a@x.com" "newpw" rfl).1,
    (resetPassword_unconditional tagHash vDb "a@x.com" "newpw" rfl).2.2⟩

theorem login_envelope_is_please_verify
    (verify : String → String → Bool) (sign : String → String → String)
    (bs : List Nat) (ff uf sf : Bool) (db : List UserRec)
    (email password : String) (env : Envelope)
    (h : (login verify sign bs ff uf sf db email password).reply =
      .envelope env) :
    env = ⟨"Please verify your account", "success", 200, .null⟩ := by
  unfold login at h
  cases ff with
  | true => simp at h
  | false =>
    simp only [Bool.false_eq_true, if_false] at h
    cases hfind : findByEmail db email with
    | none =>
      rw [hfind] at h
      simp at h
    | some user =>
      rw [hfind] at h
      by_cases hpw : verify user.passwordhash password = true
      · by_cases hver : user.verified = true
        · cases sf with
          | true => simp [hpw, hver] at h
          | false => simp [hpw, hver] at h
        · cases uf with
          | true => simp [hpw, hver] at h
          | false =>
            simp [hpw, hver] at h
            exact h.symm
      · simp [hpw] at h

/-- C7: no response data field of any auth or farm operation ever carries
the password hash: register returns exactly the public email and username
pair, login hands back an error, the null-data please-verify envelope or a
bare access token and nothing else, and the data of every other operation
is free of any passwordhash field at every nesting depth. -/
theorem responses_never_expose_passwordhash
    (hash : String → String) (newId : String) (db : List UserRec)
    (dto : CreateUserDto) (verify : String → String → Bool)
    (sign : String → String → String) (bs : List Nat) (ff uf sf : Bool)
    (email password token newPassword : String) (farms : List Farm)
    (userid farmid : String) (fdto : CreateFarmDto) (udto : UpdateFarmDto) :
    (∀ env, (register hash newId db dto).result = .ok env →
      env.data =
        .obj [("email", .str dto.email), ("username", .str dto.username)]) ∧
    dataClean (register hash newId db dto).result = true ∧
    ((∃ e, (login verify sign bs ff uf sf db email password).reply =
        .err e) ∨
     (login verify sign bs ff uf sf db email password).reply =
        .envelope ⟨"Please verify your account", "success", 200, .null⟩ ∨
     (∃ t, (login verify sign bs ff uf sf db email password).reply =
        .accessToken t)) ∧
    dataClean (verifyToken db email token).result = true ∧
    dataClean (forgotPassword bs db email).result = true ∧
    dataClean (resetPassword hash db email newPassword).result = true ∧
    dataClean (createFarm newId farms userid fdto).result = true ∧
    dataClean (getFarms farms userid).result = true ∧
    dataClean (getById farms userid farmid).result = true ∧
    dataClean (updateFarm farms userid farmid udto).result = true ∧
    dataClean (deleteFarm farms userid farmid).result = true := by
  refine ⟨?_, ?_, ?_, ?_, ?_, ?_, ?_, ?_, ?_, ?_, ?_⟩
  · intro env henv
    unfold register at henv
    split at henv
    · simp at henv
    · injection henv with h1
      rw [← h1]
  · unfold register
    split
    · rfl
    · simp [dataClean, hasKey_obj, hasKey_str]
  · rcases hrep : (login verify sign bs ff uf sf db email password).reply
      with e2 | env2 | t2
    · exact Or.inl ⟨e2, rfl⟩
    · refine Or.inr (Or.inl ?_)
      rw [login_envelope_is_please_verify verify sign bs ff uf sf db email
        password env2 hrep]
    · exact Or.inr (Or.inr ⟨t2, rfl⟩)
  · unfold verifyToken
    split
    · rfl
    · split
      · simp [dataClean, hasKey_null]
      · rfl
  · unfold forgotPassword
    split
    · rfl
    · simp [dataClean, hasKey_null]
  · unfold resetPassword
    split
    · rfl
    · simp [dataClean, hasKey_null]
  · simp [createFarm, dataClean, farmToJson_clean]
  · simp [getFarms, arrayFalsy, dataClean, farmsJson_clean]
  · unfold getById
    split
    · rfl
    · simp [dataClean, farmToJson_clean]
  · unfold updateFarm
    split
    · rfl
    · simp [dataClean, farmToJson_clean]
  · unfold deleteFarm
    split
    · rfl
    · simp [dataClean, hasKey_null]

theorem responses_never_expose_passwordhash_wit :
    (register tagHash "id9" [] ⟨"c@x.com", "cara", "Ca", "Ra", "pw"⟩).result =
      .ok ⟨"User registered.", "Success", 201,
        .obj [("email", .str "c@x.com"), ("username", .str "cara")]⟩ ∧
    (⟨"User registered.", "Success", 201,
        .obj [("email", .str "c@x.com"), ("username", .str "cara")]⟩ :
        Envelope).data =
      .obj [("email", .str "c@x.com"), ("username", .str "cara")] ∧
    dataClean (getById farmsDb "u1" "f1").result = true := by
  refine ⟨rfl, ?_, ?_⟩
  · exact (responses_never_expose_passwordhash tagHash "id9" []
      ⟨"c@x.com", "cara", "Ca", "Ra", "pw"⟩ acceptAll concatSign [] false
      false false "a@x.com" "pw" "tok" "np" farmsDb "u1" "f1"
      ⟨"North Field", ⟨"1.5", "2.5"⟩, 10, "Acres", "Planting", ⟨7, "loam"⟩⟩
      ⟨"South Field", ⟨"3.5", "4.5"⟩, 12, "Hectares", "Cultivation",
        ⟨13/2, "clay"⟩⟩).1 _ rfl
  · exact (responses_never_expose_passwordhash tagHash "id9" []
      ⟨"c@x.com", "cara", "Ca", "Ra", "pw"⟩ acceptAll concatSign [] false
      false false "a@x.com" "pw" "tok" "np" farmsDb "u1" "f1"
      ⟨"North Field", ⟨"1.5", "2.5"⟩, 10, "Acres", "Planting", ⟨7, "loam"⟩⟩
      ⟨"South Field", ⟨"3.5", "4.5"⟩, 12, "Hectares", "Cultivation",
        ⟨13/2, "clay"⟩⟩).2.2.2.2.2.2.2.2.1
